import Mathlib

/-!
Verification of the Tekton hub resolver (`pkg/resolution/resolver/hub/resolver.go`).

The Go code is shallowly embedded as follows.

* `Param` models `pipelinev1beta1.Param` restricted to the two fields the
  resolver reads: `Name` and `Value.StringVal`.
* Go maps `map[string]string` are modelled as association lists (`SMap`) with
  `mapGet` (indexing), `mapSet` (assignment, overwriting an existing key) and
  `mapGetD` (indexing with the zero-value `""` for a missing key, as Go map
  indexing behaves).  The code never iterates over a map, so association lists
  observe exactly the behaviour the code uses.
* The ambient feature flag `cfg.FeatureFlags.EnableHubResolver` is passed as an
  explicit `Bool` argument; `isDisabled` mirrors `Resolver.isDisabled`.
* The network is an explicit argument `net : String → GetResult`: a transport
  failure (`http.Get` returning an error) is `GetResult.failed msg`, a response
  is `GetResult.success resp`.  The response body (a byte stream in Go) is
  modelled at the granularity the code observes it: `Body.readFailure msg` when
  `io.ReadAll` fails, `Body.malformed msg` when the bytes are not valid JSON
  (`msg` being the parser error text), and `Body.json j` when the bytes parse
  to the JSON value `j`.
* `json.Unmarshal` into `hubResponse`/`dataResponse` is modelled by
  `unmarshalHubResponse` following Go semantics: `null` leaves the zero value,
  an absent field leaves the zero value (the empty string), a present field of
  the wrong JSON type is an error, unknown fields are ignored, keys are
  matched to struct fields case-insensitively (so `"YAML"` and `"Data"` fill
  the `yaml` and `data` fields; exact-match preference among several fields
  cannot arise for these single-field structs), and among several matching
  keys the last occurrence wins.
* `fmt.Sprintf` for the URL template is modelled by `sprintf`, which performs
  plain positional substitution of the `%s` verbs (and `%%` escapes) — the
  template `HubURL` uses only `%s` verbs; no escaping or encoding of the
  substituted values is performed, exactly as in the source.
* `Resolver.Resolve` returns, besides its Go result, an execution trace
  (`ResolveOutcome`): the list of URLs fetched, whether the response body was
  read, and whether it was closed (`none` when no response was ever obtained).
  The `defer resp.Body.Close()` in the source is registered only after the
  non-200 early return, which the embedding reproduces faithfully.
-/

namespace HubResolver

/-- Modelled from the spec: the recognized request parameter name `name`
(constant declared in the repository outside `src/`). -/
def ParamName : String := "name"

/-- Modelled from the spec: the recognized request parameter name `version`. -/
def ParamVersion : String := "version"

/-- Modelled from the spec: the recognized request parameter name `kind`. -/
def ParamKind : String := "kind"

/-- Modelled from the spec: the recognized request parameter name `catalog`. -/
def ParamCatalog : String := "catalog"

/-- Modelled from the spec: the installation-configuration key holding the
default catalog. -/
def ConfigCatalog : String := "default-catalog"

/-- Modelled from the spec: the installation-configuration key holding the
default resource kind. -/
def ConfigKind : String := "default-kind"

/-- Error message returned when the `enable-hub-resolver` feature flag is off
(`disabledError` in the source). -/
def disabledError : String :=
  "cannot handle resolution request, enable-hub-resolver feature flag not true"

/-- Message of the error returned when neither the request nor the
installation configuration provides a catalog. -/
def msgNoCatalog : String :=
  "default catalog was not set during installation of the hub resolver"

/-- Message of the error returned when neither the request nor the
installation configuration provides a kind. -/
def msgNoKind : String :=
  "default resource Kind was not set during installation of the hub resolver"

/-- Message of the error returned when the effective kind is neither `task`
nor `pipeline`. -/
def msgBadKind : String := "kind param must be task or pipeline"

/-- Model of `pipelinev1beta1.Param` restricted to the fields the resolver
reads: the parameter name and the string value (`Value.StringVal`). -/
structure Param where
  name : String
  stringVal : String
deriving Repr, DecidableEq

/-- Go `map[string]string`, modelled as an association list. -/
abbrev SMap := List (String × String)

/-- Go map indexing returning an optional value (`v, ok := m[k]`). -/
def mapGet : SMap → String → Option String
  | [], _ => none
  | (k0, v0) :: rest, k => if k0 = k then some v0 else mapGet rest k

/-- Go map assignment `m[k] = v`: overwrite the existing entry or add one. -/
def mapSet : SMap → String → String → SMap
  | [], k, v => [(k, v)]
  | (k0, v0) :: rest, k, v =>
    if k0 = k then (k0, v) :: rest else (k0, v0) :: mapSet rest k v

/-- Go map indexing without the ok flag: a missing key yields the zero value
`""` (this is how `paramsMap[ParamName]` behaves in `Resolve` when the `name`
parameter was never supplied). -/
def mapGetD (m : SMap) (k : String) : String := (mapGet m k).getD ""

/-- Collapsing the ordered parameter list into a map, later entries
overwriting earlier ones (the `for _, p := range params` loops in
`ValidateParams` and `Resolve`). -/
def collapse (params : List Param) : SMap :=
  params.foldl (fun m p => mapSet m p.name p.stringVal) []

/-- Classification of the error returns of the resolver, each carrying the
message string the Go code builds at the corresponding return site.  The
constructor names follow the spec taxonomy (§7); the Go code itself returns
untyped `error` values distinguished only by these messages. -/
inductive ResolverError where
  | configuration (msg : String)
  | missingParameter (msg : String)
  | invalidParameter (msg : String)
  | missingDefault (msg : String)
  | fetch (msg : String)
  | notFound (msg : String)
  | readBody (msg : String)
  | decode (msg : String)
deriving Repr, DecidableEq

/-- Model of `Resolver.isDisabled`: the resolver is disabled exactly when the
`EnableHubResolver` feature flag is not true. -/
def isDisabled (enableHubResolver : Bool) : Bool :=
  if enableHubResolver then false else true

/-- Model of `Resolver.ValidateParams`.  The feature-flag gate, then the
presence checks for `name` and `version`, then the `kind` enumeration check,
in source order. -/
def ValidateParams (enableHubResolver : Bool) (params : List Param) :
    Except ResolverError Unit :=
  if isDisabled enableHubResolver then .error (.configuration disabledError)
  else
    let paramsMap := collapse params
    if (mapGet paramsMap ParamName).isNone then
      .error (.missingParameter "must include name param")
    else if (mapGet paramsMap ParamVersion).isNone then
      .error (.missingParameter "must include version param")
    else
      match mapGet paramsMap ParamKind with
      | some kind =>
        if kind ≠ "task" ∧ kind ≠ "pipeline" then .error (.invalidParameter msgBadKind)
        else .ok ()
      | none => .ok ()

/-- JSON values, the parse result of a response body.  Number payloads are
irrelevant to the resolver (no numeric field is decoded), so `num` carries an
integer stand-in. -/
inductive Json where
  | null
  | bool (b : Bool)
  | num (n : Int)
  | str (s : String)
  | arr (elems : List Json)
  | obj (fields : List (String × Json))

/-- Case folding of key comparison: `encoding/json` matches object keys to
struct fields with `strings.EqualFold` when no exact match exists, modelled by
lower-casing both sides (the field names involved, `data` and `yaml`, are
ASCII). -/
def eqFold (a b : String) : Bool :=
  a.data.map Char.toLower == b.data.map Char.toLower

/-- Lookup of the object key filling the struct field named `k`: keys are
matched case-insensitively (exact-match preference among several struct
fields cannot arise for the single-field structs here), and among several
matching keys the last occurrence wins, as `encoding/json` processes keys in
order, each match overwriting the field. -/
def getField : List (String × Json) → String → Option Json
  | [], _ => none
  | (k0, v0) :: rest, k =>
    match getField rest k with
    | some v => some v
    | none => if eqFold k0 k then some v0 else none

/-- Go `json.Unmarshal` of a JSON value into a `string` struct field: `null`
leaves the zero value `""`, a string is taken as is, anything else is a type
error. -/
def unmarshalStringField : Json → Except String String
  | .null => .ok ""
  | .str s => .ok s
  | _ => .error "cannot unmarshal value into Go string field"

/-- Go `json.Unmarshal` into `dataResponse` (the struct with the `yaml`
field): the value must be an object (or `null`); an absent `yaml` field leaves
the zero value `""`. -/
def unmarshalDataResponse : Json → Except String String
  | .null => .ok ""
  | .obj fields =>
    match getField fields "yaml" with
    | none => .ok ""
    | some v => unmarshalStringField v
  | _ => .error "cannot unmarshal value into Go struct dataResponse"

/-- Go `json.Unmarshal` into `hubResponse` (the struct with the `data` field),
returning the decoded `Data.YAML` string: the top-level value must be an
object (or `null`); an absent `data` field leaves the zero value `""`. -/
def unmarshalHubResponse : Json → Except String String
  | .null => .ok ""
  | .obj fields =>
    match getField fields "data" with
    | none => .ok ""
    | some v => unmarshalDataResponse v
  | _ => .error "cannot unmarshal value into Go struct hubResponse"

/-- Response body, at the granularity the code observes it: `io.ReadAll`
failing, bytes that are not valid JSON, or bytes parsing to a JSON value. -/
inductive Body where
  | readFailure (msg : String)
  | malformed (msg : String)
  | json (j : Json)

/-- Model of `*http.Response` restricted to the fields the code reads. -/
structure HttpResponse where
  statusCode : Nat
  body : Body

/-- Result of `http.Get`: a transport error or a response. -/
inductive GetResult where
  | failed (msg : String)
  | success (resp : HttpResponse)

/-- Model of `ResolvedHubResource`: the struct holds exactly one field, the
fetched content (`[]byte` in Go, whose bytes are the UTF-8 encoding of this
string). -/
structure ResolvedHubResource where
  Content : String
deriving Repr, DecidableEq

/-- Accessor `Data()`: returns the content unchanged. -/
def ResolvedHubResource.Data (rr : ResolvedHubResource) : String := rr.Content

/-- Accessor `Annotations()`: the Go method returns the nil map, modelled as
`none`. -/
def ResolvedHubResource.Annotations (_ : ResolvedHubResource) : Option SMap := none

/-- Accessor `Source()`: the Go method returns a nil `*ConfigSource`, modelled
as `none` (`ConfigSource` is never constructed by this code, so it is
represented by `Unit`). -/
def ResolvedHubResource.Source (_ : ResolvedHubResource) : Option Unit := none

/-- Substitution of `%s` verbs in a format string by successive arguments,
copying every other character verbatim (`%%` escapes a percent sign; a missing
argument produces Go's `%!s(MISSING)` marker).  The hub URL template contains
only `%s` verbs and literal characters. -/
def substChars : List Char → List String → List Char
  | [], _ => []
  | '%' :: 's' :: rest, a :: args => a.data ++ substChars rest args
  | '%' :: 's' :: rest, [] => "%!s(MISSING)".data ++ substChars rest []
  | '%' :: '%' :: rest, args => '%' :: substChars rest args
  | c :: rest, args => c :: substChars rest args

/-- Model of `fmt.Sprintf(format, args...)` restricted to `%s` verbs: plain
positional string substitution, no escaping or encoding of the arguments. -/
def sprintf (format : String) (args : List String) : String :=
  ⟨substChars format.data args⟩

/-- The single-quote character, used by the not-found error message. -/
def squote : String := String.singleton (Char.ofNat 39)

/-- Message of the error returned on a non-200 status:
`requested resource <url-in-single-quotes> not found on hub`. -/
def notFoundMsg (url : String) : String :=
  "requested resource " ++ squote ++ url ++ squote ++ " not found on hub"

/-- Effective kind of a request: the `kind` parameter when the request
supplies one, otherwise the installation default
(`kind, ok := paramsMap[ParamKind]` with the `if !ok` fallback in the
source). -/
def effectiveKind (paramsMap : SMap) (conf : SMap) : Option String :=
  match mapGet paramsMap ParamKind with
  | some k => some k
  | none => mapGet conf ConfigKind

/-- The `kind` merging of `Resolve`: take the effective kind, require it to be
`task` or `pipeline`, and write it back into the map
(`paramsMap[ParamKind] = kind`). -/
def mergeKind (paramsMap : SMap) (conf : SMap) : Except ResolverError SMap :=
  match effectiveKind paramsMap conf with
  | none => .error (.missingDefault msgNoKind)
  | some kind =>
    if kind ≠ "task" ∧ kind ≠ "pipeline" then .error (.invalidParameter msgBadKind)
    else .ok (mapSet paramsMap ParamKind kind)

/-- The parameter-merging prefix of `Resolve`: fill in `catalog` from the
installation configuration when the request omits it, then merge and validate
`kind`.  Note that `name` and `version` are not consulted here. -/
def mergeParams (paramsMap : SMap) (conf : SMap) : Except ResolverError SMap :=
  match mapGet paramsMap ParamCatalog with
  | some _ => mergeKind paramsMap conf
  | none =>
    match mapGet conf ConfigCatalog with
    | some catalogString => mergeKind (mapSet paramsMap ParamCatalog catalogString) conf
    | none => .error (.missingDefault msgNoCatalog)

/-- URL construction of `Resolve`:
`fmt.Sprintf(r.HubURL, paramsMap[ParamCatalog], paramsMap[ParamKind],
paramsMap[ParamName], paramsMap[ParamVersion])` — positional substitution of
catalog, kind, name, version, in that order, a missing key contributing the
empty string. -/
def buildUrl (hubURL : String) (m : SMap) : String :=
  sprintf hubURL [mapGetD m ParamCatalog, mapGetD m ParamKind,
                  mapGetD m ParamName, mapGetD m ParamVersion]

/-- The post-200 portion of `Resolve`: `io.ReadAll`, `json.Unmarshal`, and
construction of the `ResolvedHubResource` from `hr.Data.YAML`. -/
def handleBody : Body → Except ResolverError ResolvedHubResource
  | .readFailure e => .error (.readBody ("error reading response body: " ++ e))
  | .malformed e => .error (.decode ("error unmarshalling json response: " ++ e))
  | .json j =>
    match unmarshalHubResponse j with
    | .error e => .error (.decode ("error unmarshalling json response: " ++ e))
    | .ok yaml => .ok ⟨yaml⟩

/-- Observable outcome of one `Resolve` call: the returned value or error,
the list of URLs fetched, whether the response body was read, and whether it
was closed (`none` when no response was obtained). -/
structure ResolveOutcome where
  result : Except ResolverError ResolvedHubResource
  requests : List String
  bodyRead : Bool
  bodyClosed : Option Bool
deriving Repr

/-- Model of `Resolver.Resolve`, following the source line by line: the
feature-flag gate; parameter collapsing; catalog and kind merging
(`mergeParams`); URL construction (`buildUrl`); `http.Get`; the non-200 early
return (taken before `defer resp.Body.Close()` is registered, so the body is
not closed on that path); body read and JSON decoding (`handleBody`). -/
def Resolve (enableHubResolver : Bool) (conf : SMap) (hubURL : String)
    (params : List Param) (net : String → GetResult) : ResolveOutcome :=
  if isDisabled enableHubResolver then
    ⟨.error (.configuration disabledError), [], false, none⟩
  else
    let paramsMap := collapse params
    match mergeParams paramsMap conf with
    | .error e => ⟨.error e, [], false, none⟩
    | .ok m =>
      let url := buildUrl hubURL m
      match net url with
      | .failed e =>
        ⟨.error (.fetch ("error requesting resource from hub: " ++ e)), [url], false, none⟩
      | .success resp =>
        if resp.statusCode ≠ 200 then
          ⟨.error (.notFound (notFoundMsg url)), [url], false, some false⟩
        else
          ⟨handleBody resp.body, [url], true, some true⟩

/-- Lower-casing of a string, character by character. -/
def strLower (s : String) : String := ⟨s.data.map Char.toLower⟩

/-- Mention of a key in an error message, up to letter case: the message,
lower-cased, contains the key as a contiguous substring. -/
def mentions (msg key : String) : Prop :=
  List.IsInfix key.data (strLower msg).data

/-- Reading a key just written reads the written value. -/
theorem mapGet_mapSet_self (m : SMap) (k v : String) : mapGet (mapSet m k v) k = some v := by
  induction m with
  | nil => simp [mapSet, mapGet]
  | cons hd tl ih =>
    obtain ⟨k0, v0⟩ := hd
    by_cases h : k0 = k <;> simp [mapSet, mapGet, h, ih]

/-- Writing one key does not change the value read at another. -/
theorem mapGet_mapSet_of_ne (m : SMap) (k v k2 : String) (h : k ≠ k2) :
    mapGet (mapSet m k v) k2 = mapGet m k2 := by
  induction m with
  | nil => simp [mapSet, mapGet, h]
  | cons hd tl ih =>
    obtain ⟨k0, v0⟩ := hd
    by_cases h0 : k0 = k
    · subst h0; simp [mapSet, mapGet, h]
    · simp [mapSet, mapGet, h0, ih]

/-- Inversion of a successful `mergeKind`: the effective kind exists, is
`task` or `pipeline`, and is written back into the map. -/
theorem mergeKind_ok (paramsMap conf m : SMap) (h : mergeKind paramsMap conf = .ok m) :
    ∃ kind, (kind = "task" ∨ kind = "pipeline") ∧
      effectiveKind paramsMap conf = some kind ∧
      m = mapSet paramsMap ParamKind kind := by
  unfold mergeKind at h
  split at h
  · exact absurd h (by simp)
  next kind hk =>
    split at h
    · exact absurd h (by simp)
    next hkv =>
      have hor := not_and_or.mp hkv
      simp only [not_not] at hor
      exact ⟨kind, hor, hk, (Except.ok.inj h).symm⟩

/-- An effective kind outside the task/pipeline enumeration makes `mergeKind`
fail with the invalid-parameter error. -/
theorem mergeKind_invalid (paramsMap conf : SMap) (kind : String)
    (hk : effectiveKind paramsMap conf = some kind)
    (h1 : kind ≠ "task") (h2 : kind ≠ "pipeline") :
    mergeKind paramsMap conf = .error (.invalidParameter msgBadKind) := by
  unfold mergeKind
  rw [hk]
  simp [h1, h2]

/-- A missing effective kind makes `mergeKind` fail with the missing-default
error. -/
theorem mergeKind_noKind (paramsMap conf : SMap)
    (hk : effectiveKind paramsMap conf = none) :
    mergeKind paramsMap conf = .error (.missingDefault msgNoKind) := by
  unfold mergeKind
  rw [hk]

/-- Reduction of `Resolve` when merging fails. -/
theorem Resolve_merge_error (conf : SMap) (hubURL : String) (params : List Param)
    (net : String → GetResult) (e : ResolverError)
    (hm : mergeParams (collapse params) conf = .error e) :
    Resolve true conf hubURL params net = ⟨.error e, [], false, none⟩ := by
  unfold Resolve
  simp [isDisabled, hm]

/-- Reduction of `Resolve` when the transport-level fetch fails. -/
theorem Resolve_fetch_failed (conf : SMap) (hubURL : String) (params : List Param)
    (net : String → GetResult) (m : SMap) (e : String)
    (hm : mergeParams (collapse params) conf = .ok m)
    (hnet : net (buildUrl hubURL m) = .failed e) :
    Resolve true conf hubURL params net =
      ⟨.error (.fetch ("error requesting resource from hub: " ++ e)),
       [buildUrl hubURL m], false, none⟩ := by
  unfold Resolve
  simp [isDisabled, hm, hnet]

/-- Reduction of `Resolve` on a non-200 response: the not-found error is
returned, the body is not read, and — the close being deferred only after
this early return — the body is not closed. -/
theorem Resolve_non200 (conf : SMap) (hubURL : String) (params : List Param)
    (net : String → GetResult) (m : SMap) (resp : HttpResponse)
    (hm : mergeParams (collapse params) conf = .ok m)
    (hnet : net (buildUrl hubURL m) = .success resp)
    (hst : resp.statusCode ≠ 200) :
    Resolve true conf hubURL params net =
      ⟨.error (.notFound (notFoundMsg (buildUrl hubURL m))),
       [buildUrl hubURL m], false, some false⟩ := by
  unfold Resolve
  simp [isDisabled, hm, hnet, hst]

/-- Reduction of `Resolve` on a 200 response: the body is read, decoded by
`handleBody`, and closed. -/
theorem Resolve_200 (conf : SMap) (hubURL : String) (params : List Param)
    (net : String → GetResult) (m : SMap) (b : Body)
    (hm : mergeParams (collapse params) conf = .ok m)
    (hnet : net (buildUrl hubURL m) = .success ⟨200, b⟩) :
    Resolve true conf hubURL params net =
      ⟨handleBody b, [buildUrl hubURL m], true, some true⟩ := by
  unfold Resolve
  simp [isDisabled, hm, hnet]

/-- C1 (counterexample): the claim says `Resolve` fails rather than
proceeding to URL construction when `name` is absent.  On a request with no
`name` parameter (only `version` and `catalog`, the kind coming from the
installation default), `Resolve` does not fail: it builds the URL with an
empty string in the name slot, fetches it, and returns the resource. -/
theorem C1_counterexample :
    Resolve true [(ConfigKind, "task")] "u/%s/%s/%s/%s"
      [⟨ParamVersion, "0.9"⟩, ⟨ParamCatalog, "c"⟩]
      (fun _ => .success ⟨200, .json (.obj [("data", .obj [("yaml", .str "x")])])⟩) =
      ⟨.ok ⟨"x"⟩, ["u/c/task//0.9"], true, some true⟩ := rfl

/-- C1 (amended): whenever the merging prefix of `Resolve` succeeds, the
merged parameter mapping is guaranteed to contain a `catalog` entry and a
`kind` entry equal to `task` or `pipeline`; `name` and `version` are not
checked by `Resolve` (absent or empty values are substituted into the URL as
empty strings without failing). -/
theorem C1_merged_map_guarantees (paramsMap conf m : SMap)
    (h : mergeParams paramsMap conf = .ok m) :
    (mapGet m ParamCatalog).isSome = true ∧
      (mapGet m ParamKind = some "task" ∨ mapGet m ParamKind = some "pipeline") := by
  unfold mergeParams at h
  split at h
  next c hc =>
    obtain ⟨kind, hor, hk, hm⟩ := mergeKind_ok _ _ _ h
    subst hm
    constructor
    · rw [mapGet_mapSet_of_ne _ _ _ _ (by decide : ParamKind ≠ ParamCatalog), hc]
      rfl
    · rcases hor with h1 | h1
      · left; rw [mapGet_mapSet_self, h1]
      · right; rw [mapGet_mapSet_self, h1]
  next hc =>
    split at h
    next cs hcc =>
      obtain ⟨kind, hor, hk, hm⟩ := mergeKind_ok _ _ _ h
      subst hm
      constructor
      · rw [mapGet_mapSet_of_ne _ _ _ _ (by decide : ParamKind ≠ ParamCatalog),
            mapGet_mapSet_self]
        rfl
      · rcases hor with h1 | h1
        · left; rw [mapGet_mapSet_self, h1]
        · right; rw [mapGet_mapSet_self, h1]
    next => exact absurd h (by simp)

/-- C1 (witness): the amended guarantee evaluated on a concrete request. -/
theorem C1_merged_map_guarantees_witness :
    (mapGet [(ParamCatalog, "c"), (ParamKind, "task")] ParamCatalog).isSome = true ∧
      (mapGet [(ParamCatalog, "c"), (ParamKind, "task")] ParamKind = some "task" ∨
        mapGet [(ParamCatalog, "c"), (ParamKind, "task")] ParamKind = some "pipeline") :=
  C1_merged_map_guarantees [(ParamCatalog, "c")] [(ConfigKind, "task")]
    [(ParamCatalog, "c"), (ParamKind, "task")] rfl

/-- C3 (code bug): the claim — and the spec — say the response body is closed
on every exit path once the HTTP GET has succeeded, including the non-200
path.  In the source, `defer resp.Body.Close()` is registered only after the
`resp.StatusCode != http.StatusOK` early return, so on a 404 the body is
never closed.  Evaluated on a concrete 404 response: a response was obtained
(`bodyClosed` is `some _`) but the body was not closed (`some false`). -/
theorem C3_body_not_closed_on_404 :
    Resolve true [(ConfigCatalog, "tekton"), (ConfigKind, "task")]
      "https://api.hub.tekton.dev/v1/resource/%s/%s/%s/%s/yaml"
      [⟨ParamName, "git-clone"⟩, ⟨ParamVersion, "0.9"⟩]
      (fun _ => .success ⟨404, .json .null⟩) =
      ⟨.error (.notFound (notFoundMsg
          "https://api.hub.tekton.dev/v1/resource/tekton/task/git-clone/0.9/yaml")),
        ["https://api.hub.tekton.dev/v1/resource/tekton/task/git-clone/0.9/yaml"],
        false, some false⟩ := rfl

/-- C4: on a 200 response whose body is exactly
`obj [(data, obj [(yaml, str s)])]`, `Resolve` succeeds and the returned
resource's `Data` is exactly `s`, its `Annotations` are absent (the nil map)
and its `Source` is absent; `ResolvedHubResource` holds nothing but the
content, and `Data`, `Annotations` and `Source` are its only accessors. -/
theorem C4_success_contract (conf : SMap) (hubURL : String) (params : List Param)
    (net : String → GetResult) (m : SMap) (s : String)
    (hm : mergeParams (collapse params) conf = .ok m)
    (hnet : net (buildUrl hubURL m) =
      .success ⟨200, .json (.obj [("data", .obj [("yaml", .str s)])])⟩) :
    (Resolve true conf hubURL params net).result = .ok ⟨s⟩ ∧
      ResolvedHubResource.Data ⟨s⟩ = s ∧
      ResolvedHubResource.Annotations ⟨s⟩ = none ∧
      ResolvedHubResource.Source ⟨s⟩ = none := by
  rw [Resolve_200 conf hubURL params net m _ hm hnet]
  exact ⟨rfl, rfl, rfl, rfl⟩

/-- C4 (witness): the success contract evaluated on the spec's example body. -/
theorem C4_success_contract_witness :
    (Resolve true [(ConfigCatalog, "c"), (ConfigKind, "task")] "hub/%s/%s/%s/%s"
        [⟨ParamName, "n"⟩, ⟨ParamVersion, "1"⟩]
        (fun _ => .success ⟨200, .json (.obj [("data",
          .obj [("yaml", .str "kind: Task"), ("x", .null)])])⟩)).result =
      .ok ⟨"kind: Task"⟩ ∧
      ResolvedHubResource.Data ⟨"kind: Task"⟩ = "kind: Task" ∧
      ResolvedHubResource.Annotations ⟨"kind: Task"⟩ = none ∧
      ResolvedHubResource.Source ⟨"kind: Task"⟩ = none := by
  have h := C4_success_contract [(ConfigCatalog, "c"), (ConfigKind, "task")] "hub/%s/%s/%s/%s"
    [⟨ParamName, "n"⟩, ⟨ParamVersion, "1"⟩]
    (fun _ => .success ⟨200, .json (.obj [("data", .obj [("yaml", .str "kind: Task")])])⟩)
    [("name", "n"), ("version", "1"), ("catalog", "c"), ("kind", "task")] "kind: Task" rfl rfl
  exact h

/-- C5: whenever the merging prefix of `Resolve` succeeds with a
fully-populated mapping (all of catalog, kind, name, version present), the
single URL fetched is the resolver's template filled by plain positional
substitution with catalog, kind, name, version, in exactly that order
(`sprintf` performs no escaping or encoding of the substituted values). -/
theorem C5_positional_url (conf : SMap) (hubURL : String) (params : List Param)
    (net : String → GetResult) (m : SMap) (c k n v : String)
    (hm : mergeParams (collapse params) conf = .ok m)
    (hc : mapGet m ParamCatalog = some c) (hk : mapGet m ParamKind = some k)
    (hn : mapGet m ParamName = some n) (hv : mapGet m ParamVersion = some v) :
    (Resolve true conf hubURL params net).requests = [sprintf hubURL [c, k, n, v]] := by
  have hurl : buildUrl hubURL m = sprintf hubURL [c, k, n, v] := by
    unfold buildUrl mapGetD
    rw [hc, hk, hn, hv]
    rfl
  cases hg : net (buildUrl hubURL m) with
  | failed e =>
    rw [Resolve_fetch_failed conf hubURL params net m e hm hg]
    simp [hurl]
  | success resp =>
    obtain ⟨sc, b⟩ := resp
    by_cases hst : sc = 200
    · subst hst
      rw [Resolve_200 conf hubURL params net m b hm hg]
      simp [hurl]
    · rw [Resolve_non200 conf hubURL params net m ⟨sc, b⟩ hm hg hst]
      simp [hurl]

/-- C5 (witness): the spec's example — parameters name `git-clone`, version
`0.9`, kind `task` and installation catalog `Tekton` substituted into the
template in the order catalog, kind, name, version. -/
theorem C5_positional_url_witness :
    (Resolve true [(ConfigCatalog, "Tekton")]
        "https://api.hub.tekton.dev/v1/resource/%s/%s/%s/%s/yaml"
        [⟨ParamName, "git-clone"⟩, ⟨ParamVersion, "0.9"⟩, ⟨ParamKind, "task"⟩]
        (fun _ => .failed "offline")).requests =
      [sprintf "https://api.hub.tekton.dev/v1/resource/%s/%s/%s/%s/yaml"
        ["Tekton", "task", "git-clone", "0.9"]] :=
  C5_positional_url [(ConfigCatalog, "Tekton")]
    "https://api.hub.tekton.dev/v1/resource/%s/%s/%s/%s/yaml"
    [⟨ParamName, "git-clone"⟩, ⟨ParamVersion, "0.9"⟩, ⟨ParamKind, "task"⟩]
    (fun _ => .failed "offline")
    [("name", "git-clone"), ("version", "0.9"), ("kind", "task"), ("catalog", "Tekton")]
    "Tekton" "task" "git-clone" "0.9" rfl rfl rfl rfl rfl

/-- C6: whenever the fetch succeeds but the status code is not 200, `Resolve`
fails with the not-found error, whose message contains the constructed URL,
and the response body is never read (`bodyRead = false`), whatever the body
holds. -/
theorem C6_notfound_contract (conf : SMap) (hubURL : String) (params : List Param)
    (net : String → GetResult) (m : SMap) (resp : HttpResponse)
    (hm : mergeParams (collapse params) conf = .ok m)
    (hnet : net (buildUrl hubURL m) = .success resp)
    (hst : resp.statusCode ≠ 200) :
    (Resolve true conf hubURL params net).result =
      .error (.notFound (notFoundMsg (buildUrl hubURL m))) ∧
    (Resolve true conf hubURL params net).bodyRead = false ∧
    ∃ pre post, notFoundMsg (buildUrl hubURL m) = pre ++ (buildUrl hubURL m ++ post) := by
  rw [Resolve_non200 conf hubURL params net m resp hm hnet hst]
  refine ⟨rfl, rfl, "requested resource " ++ squote, squote ++ " not found on hub", ?_⟩
  simp [notFoundMsg, String.append_assoc]

/-- C6 (witness): the not-found contract evaluated on a concrete 404. -/
theorem C6_notfound_contract_witness :
    (Resolve true [(ConfigCatalog, "c"), (ConfigKind, "task")] "hub/%s/%s/%s/%s"
        [⟨ParamName, "n"⟩, ⟨ParamVersion, "1"⟩]
        (fun _ => .success ⟨404, .malformed "unparsed"⟩)).result =
      .error (.notFound (notFoundMsg (buildUrl "hub/%s/%s/%s/%s"
        [("name", "n"), ("version", "1"), ("catalog", "c"), ("kind", "task")]))) ∧
    (Resolve true [(ConfigCatalog, "c"), (ConfigKind, "task")] "hub/%s/%s/%s/%s"
        [⟨ParamName, "n"⟩, ⟨ParamVersion, "1"⟩]
        (fun _ => .success ⟨404, .malformed "unparsed"⟩)).bodyRead = false ∧
    ∃ pre post, notFoundMsg (buildUrl "hub/%s/%s/%s/%s"
        [("name", "n"), ("version", "1"), ("catalog", "c"), ("kind", "task")]) =
      pre ++ (buildUrl "hub/%s/%s/%s/%s"
        [("name", "n"), ("version", "1"), ("catalog", "c"), ("kind", "task")] ++ post) :=
  C6_notfound_contract [(ConfigCatalog, "c"), (ConfigKind, "task")] "hub/%s/%s/%s/%s"
    [⟨ParamName, "n"⟩, ⟨ParamVersion, "1"⟩]
    (fun _ => .success ⟨404, .malformed "unparsed"⟩)
    [("name", "n"), ("version", "1"), ("catalog", "c"), ("kind", "task")]
    ⟨404, .malformed "unparsed"⟩ rfl rfl (by decide)

set_option maxRecDepth 8000 in
/-- C7 (counterexample): the claim says that whenever the request omits
`kind` and the installation configuration lacks a default kind, `Resolve`
fails with a missing-default error mentioning the kind key.  On a request
that also lacks `catalog` everywhere, `Resolve` instead fails with the
catalog missing-default error, whose message does not mention `kind` at
all — the catalog check precedes the kind check. -/
theorem C7_counterexample :
    Resolve true [] "u%s%s%s%s" [⟨ParamName, "n"⟩, ⟨ParamVersion, "1"⟩]
        (fun _ => .failed "offline") =
      ⟨.error (.missingDefault msgNoCatalog), [], false, none⟩ ∧
      ¬ mentions msgNoCatalog ParamKind := by
  refine ⟨rfl, ?_⟩
  unfold mentions
  decide

/-- C7 (amended): when the request omits `catalog` and the installation
configuration has no default catalog, `Resolve` fails with the
missing-default error whose message mentions `catalog`, and performs no
network call; respectively for `kind` (whose message capitalizes the key as
`Kind`, so the mention is up to letter case), provided the catalog is
resolvable so that the kind check is reached at all. -/
theorem C7_missing_default_contract :
    (∀ (conf : SMap) (hubURL : String) (params : List Param) (net : String → GetResult),
        mapGet (collapse params) ParamCatalog = none →
        mapGet conf ConfigCatalog = none →
        Resolve true conf hubURL params net =
          ⟨.error (.missingDefault msgNoCatalog), [], false, none⟩ ∧
          mentions msgNoCatalog ParamCatalog) ∧
    (∀ (conf : SMap) (hubURL : String) (params : List Param) (net : String → GetResult),
        ((mapGet (collapse params) ParamCatalog).isSome ∨
          (mapGet conf ConfigCatalog).isSome) →
        mapGet (collapse params) ParamKind = none →
        mapGet conf ConfigKind = none →
        Resolve true conf hubURL params net =
          ⟨.error (.missingDefault msgNoKind), [], false, none⟩ ∧
          mentions msgNoKind ParamKind) := by
  constructor
  · intro conf hubURL params net hc hcc
    refine ⟨?_, by unfold mentions; decide⟩
    apply Resolve_merge_error
    unfold mergeParams
    rw [hc, hcc]
  · intro conf hubURL params net hcat hk hkk
    have hek : ∀ pm2 : SMap, mapGet pm2 ParamKind = none → effectiveKind pm2 conf = none := by
      intro pm2 h2
      unfold effectiveKind
      rw [h2, hkk]
    refine ⟨?_, by unfold mentions; decide⟩
    apply Resolve_merge_error
    unfold mergeParams
    rcases hc2 : mapGet (collapse params) ParamCatalog with _ | c
    · rcases hcc2 : mapGet conf ConfigCatalog with _ | cs
      · rw [hc2, hcc2] at hcat
        simp at hcat
      · exact mergeKind_noKind _ _ (hek _
          (by rw [mapGet_mapSet_of_ne _ _ _ _ (by decide : ParamCatalog ≠ ParamKind), hk]))
    · exact mergeKind_noKind _ _ (hek _ hk)

/-- C7 (witness): both halves of the amended contract evaluated on concrete
requests — one with no catalog anywhere, one whose catalog is supplied in the
request but whose kind is absent everywhere. -/
theorem C7_missing_default_contract_witness :
    (Resolve true [] "u-%s%s%s%s" [⟨ParamName, "n"⟩] (fun _ => .failed "offline") =
        ⟨.error (.missingDefault msgNoCatalog), [], false, none⟩ ∧
      mentions msgNoCatalog ParamCatalog) ∧
    (Resolve true [] "u-%s%s%s%s" [⟨ParamName, "n"⟩, ⟨ParamCatalog, "c"⟩]
        (fun _ => .failed "offline") =
        ⟨.error (.missingDefault msgNoKind), [], false, none⟩ ∧
      mentions msgNoKind ParamKind) :=
  ⟨C7_missing_default_contract.1 [] "u-%s%s%s%s" [⟨ParamName, "n"⟩]
      (fun _ => .failed "offline") rfl rfl,
    C7_missing_default_contract.2 [] "u-%s%s%s%s" [⟨ParamName, "n"⟩, ⟨ParamCatalog, "c"⟩]
      (fun _ => .failed "offline") (Or.inl (by decide)) rfl rfl⟩

/-- C8 (counterexample): as stated the claim fails on error precedence.  With
kind `oops` in the request but no catalog anywhere, `Resolve` fails with the
missing-default-catalog error, not the invalid-parameter error; and with kind
`oops` but `name` absent, `ValidateParams` fails with the missing-parameter
error, not the invalid-parameter error. -/
theorem C8_counterexample :
    (Resolve true [] "%s%s%s%s"
        [⟨ParamKind, "oops"⟩, ⟨ParamName, "n"⟩, ⟨ParamVersion, "1"⟩]
        (fun _ => .failed "")).result = .error (.missingDefault msgNoCatalog) ∧
    ValidateParams true [⟨ParamKind, "oops"⟩, ⟨ParamVersion, "1"⟩] =
      .error (.missingParameter "must include name param") := ⟨rfl, rfl⟩

/-- C8 (amended): provided the catalog is resolvable (present in the request
or in the installation configuration), an effective kind outside
{task, pipeline} — including one originating from the installation
configuration — makes `Resolve` fail with the invalid-parameter error and no
network call; and provided `name` and `version` are present, a supplied kind
outside {task, pipeline} makes `ValidateParams` fail with the
invalid-parameter error. -/
theorem C8_invalid_kind_contract :
    (∀ (conf : SMap) (hubURL : String) (params : List Param)
        (net : String → GetResult) (k : String),
        ((mapGet (collapse params) ParamCatalog).isSome ∨
          (mapGet conf ConfigCatalog).isSome) →
        effectiveKind (collapse params) conf = some k →
        k ≠ "task" → k ≠ "pipeline" →
        Resolve true conf hubURL params net =
          ⟨.error (.invalidParameter msgBadKind), [], false, none⟩) ∧
    (∀ (params : List Param) (k : String),
        (mapGet (collapse params) ParamName).isSome →
        (mapGet (collapse params) ParamVersion).isSome →
        mapGet (collapse params) ParamKind = some k →
        k ≠ "task" → k ≠ "pipeline" →
        ValidateParams true params = .error (.invalidParameter msgBadKind)) := by
  constructor
  · intro conf hubURL params net k hcat hek h1 h2
    apply Resolve_merge_error
    unfold mergeParams
    rcases hc2 : mapGet (collapse params) ParamCatalog with _ | c
    · rcases hcc2 : mapGet conf ConfigCatalog with _ | cs
      · rw [hc2, hcc2] at hcat
        simp at hcat
      · refine mergeKind_invalid _ _ k ?_ h1 h2
        unfold effectiveKind at hek ⊢
        rw [mapGet_mapSet_of_ne _ _ _ _ (by decide : ParamCatalog ≠ ParamKind)]
        exact hek
    · exact mergeKind_invalid _ _ k hek h1 h2
  · intro params k hn hv hk h1 h2
    rcases hno : mapGet (collapse params) ParamName with _ | nv
    · rw [hno] at hn
      simp at hn
    rcases hvo : mapGet (collapse params) ParamVersion with _ | vv
    · rw [hvo] at hv
      simp at hv
    simp only [ValidateParams, isDisabled]
    rw [hno, hvo, hk]
    simp [h1, h2]

/-- C8 (witness): the amended contract evaluated with an invalid kind coming
from the installation configuration. -/
theorem C8_invalid_kind_contract_witness :
    Resolve true [(ConfigCatalog, "c"), (ConfigKind, "job")] "u%s%s%s%s"
        [⟨ParamName, "n"⟩, ⟨ParamVersion, "1"⟩] (fun _ => .failed "offline") =
      ⟨.error (.invalidParameter msgBadKind), [], false, none⟩ :=
  C8_invalid_kind_contract.1 [(ConfigCatalog, "c"), (ConfigKind, "job")] "u%s%s%s%s"
    [⟨ParamName, "n"⟩, ⟨ParamVersion, "1"⟩] (fun _ => .failed "offline") "job"
    (Or.inr (by decide)) rfl (by decide) (by decide)

/-- C9: for every parameter list whose collapsed mapping lacks `name` or
lacks `version`, `ValidateParams` (feature enabled) fails with a
missing-parameter error, regardless of the other parameters. -/
theorem C9_missing_required_param (params : List Param)
    (h : mapGet (collapse params) ParamName = none ∨
      mapGet (collapse params) ParamVersion = none) :
    ∃ msg, ValidateParams true params = .error (.missingParameter msg) := by
  rcases hno : mapGet (collapse params) ParamName with _ | nv
  · refine ⟨"must include name param", ?_⟩
    simp only [ValidateParams, isDisabled]
    rw [hno]
    rfl
  · rcases h with h | h
    · rw [hno] at h
      exact absurd h (by simp)
    · refine ⟨"must include version param", ?_⟩
      simp only [ValidateParams, isDisabled]
      rw [hno, h]
      rfl

/-- C9 (witness): a request supplying only `version` is rejected with a
missing-parameter error. -/
theorem C9_missing_required_param_witness :
    ∃ msg, ValidateParams true [⟨ParamVersion, "1"⟩, ⟨ParamKind, "task"⟩] =
      .error (.missingParameter msg) :=
  C9_missing_required_param [⟨ParamVersion, "1"⟩, ⟨ParamKind, "task"⟩] (Or.inl rfl)

/-- C10: with the hub-resolver feature flag off, `ValidateParams` and
`Resolve` both fail immediately with the configuration (feature-disabled)
error, whatever the parameters, and `Resolve` performs no network call. -/
theorem C10_feature_disabled (conf : SMap) (hubURL : String) (params : List Param)
    (net : String → GetResult) :
    ValidateParams false params = .error (.configuration disabledError) ∧
    Resolve false conf hubURL params net =
      ⟨.error (.configuration disabledError), [], false, none⟩ := ⟨rfl, rfl⟩

end HubResolver
